import Mathlib

/-!
Shallow embedding of `src/main.c` from the XMC UART transmit/receive FIFO
interrupts example.

The program keeps five globals (`tx_index`, `rx_index`, `flag`, `tx_data`,
`rx_data`), two interrupt handlers (`USIC0_0_IRQHandler` for transmit,
`USIC0_1_IRQHandler` for receive) and a `main` that performs setup and then
polls `flag`, comparing buffers when it is set.

Modelling choices:
- All globals plus the observable hardware effects (bytes pushed to the TX
  FIFO, the last programmed RX trigger limit, the driven LED level, the
  enable bits touched by the code) are collected in one state record.
- `uint32_t` subtraction is modelled with an explicit wrap `% 2^32`
  (`u32sub`), since `(NUM_DATA - rx_index) - 1` underflows when
  `rx_index = NUM_DATA`.  Index increments stay plain `Nat` successor:
  wrapping them would require 2^32 handler invocations, far beyond every
  bound appearing in the statements below.
- `uint8_t` stores truncate with `% 256`.
- A receive-handler invocation is parameterised by the list of bytes the
  RX FIFO reports available during the drain loop (the loop runs until the
  FIFO is empty, so an invocation consumes exactly that list).
- The busy-waits on `XMC_USIC_CH_TXFIFO_IsFull` are hardware liveness waits;
  the TX FIFO is modelled as the unbounded sequence of bytes pushed, i.e. a
  push happens once the wait has finished.
-/

namespace XmcUart

/-- `#define NUM_DATA 9` (`src/main.c:53`). -/
def NUM_DATA : Nat := 9

/-- Modelled from the spec: `CYBSP_DEBUG_UART_RXFIFO_LIMIT` is a generated
BSP configuration constant whose definition is not under `src/`.  The code
comment at `src/main.c:136` says the RX FIFO limit is "set to seven", and the
spec's scenario in §8 uses 7 as the receive trigger limit. -/
def CYBSP_DEBUG_UART_RXFIFO_LIMIT : Nat := 7

/-- `2^32`, the modulus of `uint32_t` arithmetic. -/
def U32 : Nat := 4294967296

/-- `uint32_t` subtraction `a - b`, wrapping modulo `2^32`. -/
def u32sub (a b : Nat) : Nat := (a + (U32 - b % U32)) % U32

/-- The two logical GPIO output levels driven on the user LED
(`GPIO_OUTPUT_LEVEL_HIGH` / `GPIO_OUTPUT_LEVEL_LOW`, whose bit encodings are
board-variant specific and abstracted here). -/
inductive GpioLevel where
  | high
  | low
deriving DecidableEq, Repr

/-- Pointwise array store: `f` with index `i` updated to `v`. -/
def setAt (f : Nat → Nat) (i v : Nat) : Nat → Nat :=
  fun j => if j = i then v else f j

/-- The program state: the five globals of `src/main.c:79-91` plus the
hardware effects the code produces (TX FIFO pushes, RX trigger limit writes,
the LED level, event/IRQ enable bits, UART start). -/
structure UartState where
  tx_index : Nat
  rx_index : Nat
  flag : Nat
  tx_data : Nat → Nat
  rx_data : Nat → Nat
  txFifo : List Nat
  rxTriggerLimit : Option Nat
  led : Option GpioLevel
  txEventEnabled : Bool
  txIrqEnabled : Bool
  rxIrqEnabled : Bool
  uartStarted : Bool

/-- State at C startup: integer globals zero-initialised, both static byte
arrays zero-initialised, no hardware effect performed yet.  The TX FIFO event
is enabled by the BSP configuration (the TX handler later disables it). -/
def initState : UartState where
  tx_index := 0
  rx_index := 0
  flag := 0
  tx_data := fun _ => 0
  rx_data := fun _ => 0
  txFifo := []
  rxTriggerLimit := none
  led := none
  txEventEnabled := true
  txIrqEnabled := false
  rxIrqEnabled := false
  uartStarted := false

/-- `USIC0_0_IRQHandler` (`src/main.c:108-129`): if `tx_index < NUM_DATA`,
busy-wait for FIFO space, push `tx_data[tx_index]` and increment the cursor;
otherwise disable the TX FIFO standard event and the NVIC interrupt. -/
def USIC0_0_IRQHandler (s : UartState) : UartState :=
  if s.tx_index < NUM_DATA then
    { s with txFifo := s.txFifo ++ [s.tx_data s.tx_index],
             tx_index := s.tx_index + 1 }
  else
    { s with txEventEnabled := false, txIrqEnabled := false }

/-- One iteration of the drain loop body (`src/main.c:152`):
`rx_data[rx_index++] = XMC_UART_CH_GetReceivedData(...)`, the received
half-word truncated by the `uint8_t` store. -/
def drainStep (s : UartState) (b : Nat) : UartState :=
  { s with rx_data := setAt s.rx_data s.rx_index (b % 256),
           rx_index := s.rx_index + 1 }

/-- The drain loop (`src/main.c:150-153`): read the RX FIFO until empty,
storing each byte at the cursor. -/
def drain (s : UartState) (avail : List Nat) : UartState :=
  avail.foldl drainStep s

/-- The completion check (`src/main.c:156-159`):
`if (rx_index == NUM_DATA) flag = 1;`. -/
def rxCheckComplete (s : UartState) : UartState :=
  if s.rx_index = NUM_DATA then { s with flag := 1 } else s

/-- The adaptive trigger-limit adjustment (`src/main.c:165-168` and,
verbatim the same two lines, `src/main.c:227-230`):
`if ((NUM_DATA - rx_index) < CYBSP_DEBUG_UART_RXFIFO_LIMIT)
   XMC_USIC_CH_RXFIFO_SetSizeTriggerLimit(..., (NUM_DATA - rx_index) - 1);`
with all arithmetic in `uint32_t`. -/
def rxAdjust (s : UartState) : UartState :=
  if u32sub NUM_DATA s.rx_index < CYBSP_DEBUG_UART_RXFIFO_LIMIT then
    { s with rxTriggerLimit := some (u32sub (u32sub NUM_DATA s.rx_index) 1) }
  else s

/-- `USIC0_1_IRQHandler` (`src/main.c:147-169`): drain the RX FIFO, then the
completion check, then the trigger-limit adjustment, in that order.
`avail` is the sequence of bytes the FIFO reports before going empty. -/
def USIC0_1_IRQHandler (s : UartState) (avail : List Nat) : UartState :=
  rxAdjust (rxCheckComplete (drain s avail))

/-- The TX-array fill loop (`src/main.c:201-204`): `tx_data[i] = i` for
`i = 0..NUM_DATA-1`, the `uint32_t` loop variable truncated by the
`uint8_t` store. -/
def fillTxData (f : Nat → Nat) : Nat → Nat :=
  (List.range NUM_DATA).foldl (fun g i => setAt g i (i % 256)) f

/-- The setup part of `main` after successful board init
(`src/main.c:200-230`): fill `tx_data`, enable both NVIC interrupts, start
the UART, busy-wait for FIFO space, push `tx_data[tx_index++]` directly, and
run the same trigger-limit adjustment as the receive handler. -/
def mainSetup (s : UartState) : UartState :=
  let t :=
    { s with tx_data := fillTxData s.tx_data,
             txIrqEnabled := true,
             rxIrqEnabled := true,
             uartStarted := true }
  rxAdjust { t with txFifo := t.txFifo ++ [t.tx_data t.tx_index],
                    tx_index := t.tx_index + 1 }

/-- One iteration of the comparison loop body (`src/main.c:238-250`): drive
the LED low on a mismatch at this index, high on a match. -/
def compareStep (s : UartState) (tmp : Nat) : UartState :=
  if s.tx_data tmp ≠ s.rx_data tmp then { s with led := some GpioLevel.low }
  else { s with led := some GpioLevel.high }

/-- One comparison pass of the main loop (`src/main.c:238-253`): compare all
`NUM_DATA` byte pairs, driving the LED each iteration, then clear `flag`. -/
def comparePass (s : UartState) : UartState :=
  let t := (List.range NUM_DATA).foldl compareStep s
  { t with flag := 0 }

/-- One iteration of the infinite polling loop (`src/main.c:232-255`): run a
comparison pass when `flag == 1`, otherwise do nothing. -/
def mainLoopIter (s : UartState) : UartState :=
  if s.flag = 1 then comparePass s else s

/-- `CY_RSLT_SUCCESS`: the zero result code of `cybsp_init`. -/
def CY_RSLT_SUCCESS : Nat := 0

/-- Outcome of entering `main` (`src/main.c:189-198`): either the `CY_ASSERT(0)`
halt on a failed `cybsp_init`, or the state reached after the setup code. -/
inductive MainOutcome where
  | halted
  | running (s : UartState)

/-- `main` up to the start of the infinite loop: `cybsp_init`'s result decides
between the assertion halt and running the setup from the initial globals. -/
def mainStart (result : Nat) : MainOutcome :=
  if result ≠ CY_RSLT_SUCCESS then MainOutcome.halted
  else MainOutcome.running (mainSetup initState)

/-- A sequence of receive-handler invocations, each draining one chunk of
available bytes. -/
def runRxPhase (s : UartState) (chunks : List (List Nat)) : UartState :=
  chunks.foldl USIC0_1_IRQHandler s

/-- A receive phase followed by one comparison pass: the part of a full
transmit/receive cycle that determines the final indicator level. -/
def runCycle (s : UartState) (chunks : List (List Nat)) : UartState :=
  comparePass (runRxPhase s chunks)

/-! ### Lemmas about `uint32_t` subtraction -/

lemma u32sub_small {a b : Nat} (hb : b ≤ a) (ha : a < U32) : u32sub a b = a - b := by
  unfold u32sub
  unfold U32 at ha ⊢
  omega

/-! ### Lemmas about the receive drain loop -/

lemma drain_rx_index (avail : List Nat) :
    ∀ s : UartState, (drain s avail).rx_index = s.rx_index + avail.length := by
  induction avail with
  | nil => intro s; rfl
  | cons b rest ih =>
      intro s
      have h : drain s (b :: rest) = drain (drainStep s b) rest := rfl
      rw [h, ih (drainStep s b)]
      show s.rx_index + 1 + rest.length = s.rx_index + (b :: rest).length
      simp only [List.length_cons]
      omega

lemma drain_frame (avail : List Nat) :
    ∀ s : UartState,
      (drain s avail).flag = s.flag ∧
      (drain s avail).tx_data = s.tx_data ∧
      (drain s avail).tx_index = s.tx_index ∧
      (drain s avail).txFifo = s.txFifo ∧
      (drain s avail).rxTriggerLimit = s.rxTriggerLimit ∧
      (drain s avail).led = s.led ∧
      (drain s avail).txEventEnabled = s.txEventEnabled ∧
      (drain s avail).txIrqEnabled = s.txIrqEnabled ∧
      (drain s avail).rxIrqEnabled = s.rxIrqEnabled ∧
      (drain s avail).uartStarted = s.uartStarted := by
  induction avail with
  | nil => intro s; exact ⟨rfl, rfl, rfl, rfl, rfl, rfl, rfl, rfl, rfl, rfl⟩
  | cons b rest ih => intro s; exact ih (drainStep s b)

lemma drain_rx_congr (avail : List Nat) :
    ∀ s1 s2 : UartState, s1.rx_index = s2.rx_index → s1.rx_data = s2.rx_data →
      (drain s1 avail).rx_index = (drain s2 avail).rx_index ∧
      (drain s1 avail).rx_data = (drain s2 avail).rx_data := by
  induction avail with
  | nil => intro s1 s2 h1 h2; exact ⟨h1, h2⟩
  | cons b rest ih =>
      intro s1 s2 h1 h2
      refine ih (drainStep s1 b) (drainStep s2 b) ?_ ?_
      · show s1.rx_index + 1 = s2.rx_index + 1
        rw [h1]
      · show setAt s1.rx_data s1.rx_index (b % 256)
            = setAt s2.rx_data s2.rx_index (b % 256)
        rw [h1, h2]

/-! ### Lemmas about the completion check and the trigger-limit adjustment -/

lemma rxCheckComplete_rx_index (s : UartState) :
    (rxCheckComplete s).rx_index = s.rx_index := by
  unfold rxCheckComplete; split <;> rfl

lemma rxCheckComplete_rx_data (s : UartState) :
    (rxCheckComplete s).rx_data = s.rx_data := by
  unfold rxCheckComplete; split <;> rfl

lemma rxCheckComplete_tx_data (s : UartState) :
    (rxCheckComplete s).tx_data = s.tx_data := by
  unfold rxCheckComplete; split <;> rfl

lemma rxCheckComplete_rxTriggerLimit (s : UartState) :
    (rxCheckComplete s).rxTriggerLimit = s.rxTriggerLimit := by
  unfold rxCheckComplete; split <;> rfl

lemma rxCheckComplete_flag (s : UartState) :
    (rxCheckComplete s).flag = if s.rx_index = NUM_DATA then 1 else s.flag := by
  unfold rxCheckComplete; split <;> simp [*]

lemma rxAdjust_rx_index (s : UartState) :
    (rxAdjust s).rx_index = s.rx_index := by
  unfold rxAdjust; split <;> rfl

lemma rxAdjust_rx_data (s : UartState) :
    (rxAdjust s).rx_data = s.rx_data := by
  unfold rxAdjust; split <;> rfl

lemma rxAdjust_tx_data (s : UartState) :
    (rxAdjust s).tx_data = s.tx_data := by
  unfold rxAdjust; split <;> rfl

lemma rxAdjust_flag (s : UartState) :
    (rxAdjust s).flag = s.flag := by
  unfold rxAdjust; split <;> rfl

lemma rxAdjust_rxTriggerLimit (s : UartState) :
    (rxAdjust s).rxTriggerLimit =
      if u32sub NUM_DATA s.rx_index < CYBSP_DEBUG_UART_RXFIFO_LIMIT
      then some (u32sub (u32sub NUM_DATA s.rx_index) 1)
      else s.rxTriggerLimit := by
  unfold rxAdjust; split <;> simp [*]

/-! ### Lemmas about a full receive-handler invocation -/

lemma handler_rx_index (s : UartState) (avail : List Nat) :
    (USIC0_1_IRQHandler s avail).rx_index = s.rx_index + avail.length := by
  unfold USIC0_1_IRQHandler
  rw [rxAdjust_rx_index, rxCheckComplete_rx_index, drain_rx_index]

lemma handler_tx_data (s : UartState) (avail : List Nat) :
    (USIC0_1_IRQHandler s avail).tx_data = s.tx_data := by
  unfold USIC0_1_IRQHandler
  rw [rxAdjust_tx_data, rxCheckComplete_tx_data, (drain_frame avail s).2.1]

lemma handler_flag (s : UartState) (avail : List Nat) :
    (USIC0_1_IRQHandler s avail).flag =
      if s.rx_index + avail.length = NUM_DATA then 1 else s.flag := by
  unfold USIC0_1_IRQHandler
  rw [rxAdjust_flag, rxCheckComplete_flag]
  rw [drain_rx_index, (drain_frame avail s).1]

lemma handler_rxTriggerLimit (s : UartState) (avail : List Nat) :
    (USIC0_1_IRQHandler s avail).rxTriggerLimit =
      if u32sub NUM_DATA (s.rx_index + avail.length) < CYBSP_DEBUG_UART_RXFIFO_LIMIT
      then some (u32sub (u32sub NUM_DATA (s.rx_index + avail.length)) 1)
      else s.rxTriggerLimit := by
  unfold USIC0_1_IRQHandler
  rw [rxAdjust_rxTriggerLimit, rxCheckComplete_rx_index, drain_rx_index,
      rxCheckComplete_rxTriggerLimit, (drain_frame avail s).2.2.2.2.1]

lemma handler_rx_congr (s1 s2 : UartState) (c : List Nat)
    (h1 : s1.rx_index = s2.rx_index) (h2 : s1.rx_data = s2.rx_data) :
    (USIC0_1_IRQHandler s1 c).rx_index = (USIC0_1_IRQHandler s2 c).rx_index ∧
    (USIC0_1_IRQHandler s1 c).rx_data = (USIC0_1_IRQHandler s2 c).rx_data := by
  have hd := drain_rx_congr c s1 s2 h1 h2
  unfold USIC0_1_IRQHandler
  constructor
  · rw [rxAdjust_rx_index, rxCheckComplete_rx_index,
        rxAdjust_rx_index, rxCheckComplete_rx_index, hd.1]
  · rw [rxAdjust_rx_data, rxCheckComplete_rx_data,
        rxAdjust_rx_data, rxCheckComplete_rx_data, hd.2]

/-! ### Lemmas about a sequence of receive-handler invocations -/

lemma runRxPhase_rx_index (chunks : List (List Nat)) :
    ∀ s : UartState,
      (runRxPhase s chunks).rx_index = s.rx_index + (chunks.map List.length).sum := by
  induction chunks with
  | nil => intro s; rfl
  | cons c rest ih =>
      intro s
      have h : runRxPhase s (c :: rest) = runRxPhase (USIC0_1_IRQHandler s c) rest := rfl
      rw [h, ih, handler_rx_index]
      simp only [List.map_cons, List.sum_cons]
      omega

lemma runRxPhase_tx_data (chunks : List (List Nat)) :
    ∀ s : UartState, (runRxPhase s chunks).tx_data = s.tx_data := by
  induction chunks with
  | nil => intro s; rfl
  | cons c rest ih =>
      intro s
      have h : runRxPhase s (c :: rest) = runRxPhase (USIC0_1_IRQHandler s c) rest := rfl
      rw [h, ih, handler_tx_data]

lemma runRxPhase_rx_congr (chunks : List (List Nat)) :
    ∀ s1 s2 : UartState, s1.rx_index = s2.rx_index → s1.rx_data = s2.rx_data →
      (runRxPhase s1 chunks).rx_index = (runRxPhase s2 chunks).rx_index ∧
      (runRxPhase s1 chunks).rx_data = (runRxPhase s2 chunks).rx_data := by
  induction chunks with
  | nil => intro s1 s2 h1 h2; exact ⟨h1, h2⟩
  | cons c rest ih =>
      intro s1 s2 h1 h2
      have hc := handler_rx_congr s1 s2 c h1 h2
      exact ih _ _ hc.1 hc.2

/-! ### Lemmas about the comparison pass -/

lemma compareStep_frame (s : UartState) (i : Nat) :
    (compareStep s i).tx_index = s.tx_index ∧
    (compareStep s i).rx_index = s.rx_index ∧
    (compareStep s i).flag = s.flag ∧
    (compareStep s i).tx_data = s.tx_data ∧
    (compareStep s i).rx_data = s.rx_data ∧
    (compareStep s i).txFifo = s.txFifo ∧
    (compareStep s i).rxTriggerLimit = s.rxTriggerLimit ∧
    (compareStep s i).txEventEnabled = s.txEventEnabled ∧
    (compareStep s i).txIrqEnabled = s.txIrqEnabled ∧
    (compareStep s i).rxIrqEnabled = s.rxIrqEnabled ∧
    (compareStep s i).uartStarted = s.uartStarted := by
  unfold compareStep
  split <;> exact ⟨rfl, rfl, rfl, rfl, rfl, rfl, rfl, rfl, rfl, rfl, rfl⟩

lemma compareFold_frame (l : List Nat) :
    ∀ s : UartState,
      ((l.foldl compareStep s).tx_index = s.tx_index) ∧
      ((l.foldl compareStep s).rx_index = s.rx_index) ∧
      ((l.foldl compareStep s).flag = s.flag) ∧
      ((l.foldl compareStep s).tx_data = s.tx_data) ∧
      ((l.foldl compareStep s).rx_data = s.rx_data) ∧
      ((l.foldl compareStep s).txFifo = s.txFifo) ∧
      ((l.foldl compareStep s).rxTriggerLimit = s.rxTriggerLimit) ∧
      ((l.foldl compareStep s).txEventEnabled = s.txEventEnabled) ∧
      ((l.foldl compareStep s).txIrqEnabled = s.txIrqEnabled) ∧
      ((l.foldl compareStep s).rxIrqEnabled = s.rxIrqEnabled) ∧
      ((l.foldl compareStep s).uartStarted = s.uartStarted) := by
  induction l with
  | nil => intro s; exact ⟨rfl, rfl, rfl, rfl, rfl, rfl, rfl, rfl, rfl, rfl, rfl⟩
  | cons i rest ih =>
      intro s
      obtain ⟨a1, a2, a3, a4, a5, a6, a7, a8, a9, a10, a11⟩ := ih (compareStep s i)
      obtain ⟨b1, b2, b3, b4, b5, b6, b7, b8, b9, b10, b11⟩ := compareStep_frame s i
      exact ⟨a1.trans b1, a2.trans b2, a3.trans b3, a4.trans b4, a5.trans b5,
             a6.trans b6, a7.trans b7, a8.trans b8, a9.trans b9, a10.trans b10,
             a11.trans b11⟩

lemma led_set_flag (t : UartState) (n : Nat) : ({ t with flag := n }).led = t.led := rfl

lemma led_set_led (t : UartState) (v : Option GpioLevel) : ({ t with led := v }).led = v := rfl

lemma compareStep_led (s : UartState) (i : Nat) :
    (compareStep s i).led =
      some (if s.tx_data i = s.rx_data i then GpioLevel.high else GpioLevel.low) := by
  unfold compareStep
  split
  · rfl
  · rename_i hne
    push_neg at hne
    rw [led_set_led, if_pos hne]

lemma compareFold_led (s : UartState) :
    ((List.range NUM_DATA).foldl compareStep s).led =
      some (if s.tx_data 8 = s.rx_data 8 then GpioLevel.high else GpioLevel.low) := by
  have hr : List.range NUM_DATA = List.range 8 ++ [8] := List.range_succ 8
  have hf := compareFold_frame (List.range 8) s
  rw [hr, List.foldl_append, List.foldl_cons, List.foldl_nil, compareStep_led,
      hf.2.2.2.1, hf.2.2.2.2.1]

lemma comparePass_eq (s : UartState) :
    comparePass s = { (List.range NUM_DATA).foldl compareStep s with flag := 0 } := rfl

lemma comparePass_led (s : UartState) :
    (comparePass s).led =
      some (if s.tx_data 8 = s.rx_data 8 then GpioLevel.high else GpioLevel.low) := by
  rw [comparePass_eq, led_set_flag]
  exact compareFold_led s

lemma mainSetup_rxTriggerLimit (t : UartState) :
    (mainSetup t).rxTriggerLimit =
      if u32sub NUM_DATA t.rx_index < CYBSP_DEBUG_UART_RXFIFO_LIMIT
      then some (u32sub (u32sub NUM_DATA t.rx_index) 1)
      else t.rxTriggerLimit :=
  rxAdjust_rxTriggerLimit _

lemma mainSetup_flag (t : UartState) : (mainSetup t).flag = t.flag :=
  rxAdjust_flag _

/-! ### Claim theorems -/

/-- C1: after the main loop observes the completion signal set and runs one
comparison pass, the indicator ends HIGH when the transmit and receive
buffers agree at every index in `[0, NUM_DATA)`, and it ends LOW whenever
they differ at the last index `NUM_DATA - 1`, regardless of earlier indices,
because every loop iteration unconditionally overwrites the driven level. -/
theorem comparison_last_index_wins (s : UartState) (hf : s.flag = 1) :
    ((∀ i, i < NUM_DATA → s.tx_data i = s.rx_data i) →
        (mainLoopIter s).led = some GpioLevel.high) ∧
    (s.tx_data (NUM_DATA - 1) ≠ s.rx_data (NUM_DATA - 1) →
        (mainLoopIter s).led = some GpioLevel.low) := by
  have hm : mainLoopIter s = comparePass s := by
    unfold mainLoopIter
    rw [if_pos hf]
  constructor
  · intro hall
    have h8 : s.tx_data 8 = s.rx_data 8 := hall 8 (by decide)
    rw [hm, comparePass_led, if_pos h8]
  · intro hne
    have h8 : s.tx_data 8 ≠ s.rx_data 8 := hne
    rw [hm, comparePass_led, if_neg h8]

/-- C1 witness: with equal buffers the pass ends HIGH; corrupting only the
byte at the last index ends LOW. -/
theorem comparison_last_index_wins_witness :
    (mainLoopIter { initState with flag := 1 }).led = some GpioLevel.high ∧
    (mainLoopIter
        { initState with flag := 1, rx_data := setAt (fun _ => 0) 8 255 }).led
      = some GpioLevel.low :=
  ⟨(comparison_last_index_wins { initState with flag := 1 } rfl).1 (by decide),
   (comparison_last_index_wins
      { initState with flag := 1, rx_data := setAt (fun _ => 0) 8 255 } rfl).2
     (by decide)⟩

/-- C2 counterexample: one receive-handler invocation from the reset state
that drains all `NUM_DATA` bytes leaves the cursor at `NUM_DATA` (zero bytes
remaining) and sets the completion flag, yet the trigger-limit reprogramming
IS still executed in the same invocation: the limit, untouched before, is
programmed to `(NUM_DATA - NUM_DATA) - 1`, which wraps to `2^32 - 1` in
`uint32_t` arithmetic.  The completion check does not prevent the code at
`src/main.c:165-168` from running. -/
theorem rx_zero_remaining_counterexample :
    initState.rxTriggerLimit = none ∧
    (USIC0_1_IRQHandler initState [0, 1, 2, 3, 4, 5, 6, 7, 8]).rx_index = NUM_DATA ∧
    (USIC0_1_IRQHandler initState [0, 1, 2, 3, 4, 5, 6, 7, 8]).flag = 1 ∧
    (USIC0_1_IRQHandler initState [0, 1, 2, 3, 4, 5, 6, 7, 8]).rxTriggerLimit
      = some 4294967295 := by
  decide

/-- C2 (amended): whenever the drain loop leaves the receive cursor equal to
`NUM_DATA`, the completion check fires, and the trigger-limit reprogramming
is ALSO reached in the same invocation: it computes `(NUM_DATA - cursor) - 1`,
which underflows in `uint32_t` arithmetic, and programs `2^32 - 1` as the
new trigger limit. -/
theorem rx_zero_remaining_adjust_executed (s : UartState) (avail : List Nat)
    (h : s.rx_index + avail.length = NUM_DATA) :
    (USIC0_1_IRQHandler s avail).flag = 1 ∧
    (USIC0_1_IRQHandler s avail).rxTriggerLimit = some 4294967295 := by
  constructor
  · rw [handler_flag, if_pos h]
  · rw [handler_rxTriggerLimit, h,
        if_pos (by decide : u32sub NUM_DATA NUM_DATA < CYBSP_DEBUG_UART_RXFIFO_LIMIT)]
    decide

/-- C2 witness: the amended behaviour at the reset state draining 9 bytes. -/
theorem rx_zero_remaining_adjust_executed_witness :
    (USIC0_1_IRQHandler initState [3, 1, 4, 1, 5, 9, 2, 6, 5]).flag = 1 ∧
    (USIC0_1_IRQHandler initState [3, 1, 4, 1, 5, 9, 2, 6, 5]).rxTriggerLimit
      = some 4294967295 :=
  rx_zero_remaining_adjust_executed initState [3, 1, 4, 1, 5, 9, 2, 6, 5] (by decide)

/-- C3 counterexample: the drain loop stores at `rx_data[rx_index++]` with no
bound check, so a single receive-handler invocation that finds 10 bytes
available, starting from cursor 0, leaves the cursor at 10 > `NUM_DATA`. -/
theorem rx_cursor_bound_counterexample :
    initState.rx_index = 0 ∧
    (USIC0_1_IRQHandler initState (List.replicate 10 0)).rx_index = 10 ∧
    ¬ (USIC0_1_IRQHandler initState (List.replicate 10 0)).rx_index ≤ NUM_DATA := by
  decide

/-- C3 (amended): starting from receive cursor 0, the cursor satisfies
`0 ≤ cursor ≤ NUM_DATA` before and after each invocation of a sequence of
receive-handler invocations, PROVIDED the total number of bytes the FIFO
reports available across the whole sequence is at most `NUM_DATA` (the bound
fails otherwise, see the counterexample).  The state after any prefix `pre`
of the sequence covers "before and after each invocation"; `0 ≤ cursor` is
inherent in the `Nat` cursor model. -/
theorem rx_cursor_bounded (s : UartState) (pre post : List (List Nat))
    (h0 : s.rx_index = 0)
    (hsum : (((pre ++ post).map List.length).sum ≤ NUM_DATA)) :
    (runRxPhase s pre).rx_index ≤ NUM_DATA := by
  rw [runRxPhase_rx_index, h0]
  rw [List.map_append, List.sum_append] at hsum
  omega

/-- C3 witness: after the first of two invocations delivering 3 + 5 bytes,
the cursor is within bounds. -/
theorem rx_cursor_bounded_witness :
    (runRxPhase initState [[0, 1, 2]]).rx_index ≤ NUM_DATA :=
  rx_cursor_bounded initState [[0, 1, 2]] [[3, 4, 5, 6, 7]] rfl (by decide)

/-- C4: one receive-handler invocation increases the receive cursor by
exactly the number of bytes drained; starting with the flag clear, the
completion signal ends set if and only if the cursor equals `NUM_DATA` after
draining; the transmit handler and the main-loop setup never change the flag
(only the receive handler sets it), and a comparison pass clears it to 0. -/
theorem rx_cursor_increment_and_completion (s : UartState) (avail : List Nat)
    (hf : s.flag = 0) :
    (USIC0_1_IRQHandler s avail).rx_index = s.rx_index + avail.length ∧
    ((USIC0_1_IRQHandler s avail).flag = 1 ↔
        (USIC0_1_IRQHandler s avail).rx_index = NUM_DATA) ∧
    (∀ t : UartState, (USIC0_0_IRQHandler t).flag = t.flag) ∧
    (∀ t : UartState, (mainSetup t).flag = t.flag) ∧
    (∀ t : UartState, (comparePass t).flag = 0) := by
  refine ⟨handler_rx_index s avail, ?_, ?_, mainSetup_flag, fun t => rfl⟩
  · rw [handler_flag, handler_rx_index]
    by_cases h : s.rx_index + avail.length = NUM_DATA
    · simp [h]
    · simp [h, hf]
  · intro t
    unfold USIC0_0_IRQHandler
    split <;> rfl

/-- C4 witness: draining 3 bytes from the reset state moves the cursor to 3,
and the completion flag is tied to the cursor reaching `NUM_DATA`. -/
theorem rx_cursor_increment_and_completion_witness :
    (USIC0_1_IRQHandler initState [1, 2, 3]).rx_index = 3 ∧
    ((USIC0_1_IRQHandler initState [1, 2, 3]).flag = 1 ↔
        (USIC0_1_IRQHandler initState [1, 2, 3]).rx_index = NUM_DATA) :=
  ⟨(rx_cursor_increment_and_completion initState [1, 2, 3] rfl).1,
   (rx_cursor_increment_and_completion initState [1, 2, 3] rfl).2.1⟩

/-- C5: a transmit-handler invocation that finds `tx_index < NUM_DATA` pushes
`tx_data[tx_index]` into the hardware FIFO (the busy-wait for FIFO space is
the hardware wait preceding the push) and increments the cursor by exactly 1;
an invocation that finds `tx_index = NUM_DATA` leaves the cursor unchanged
and disables the TX FIFO standard event and its own interrupt source, so the
cursor never changes once it reaches `NUM_DATA`. -/
theorem tx_handler_push_or_disable (s : UartState) :
    (s.tx_index < NUM_DATA →
      (USIC0_0_IRQHandler s).tx_index = s.tx_index + 1 ∧
      (USIC0_0_IRQHandler s).txFifo = s.txFifo ++ [s.tx_data s.tx_index]) ∧
    (s.tx_index = NUM_DATA →
      (USIC0_0_IRQHandler s).tx_index = s.tx_index ∧
      (USIC0_0_IRQHandler s).txEventEnabled = false ∧
      (USIC0_0_IRQHandler s).txIrqEnabled = false) := by
  constructor
  · intro h
    unfold USIC0_0_IRQHandler
    rw [if_pos h]
    exact ⟨rfl, rfl⟩
  · intro h
    unfold USIC0_0_IRQHandler
    rw [if_neg (by omega : ¬ s.tx_index < NUM_DATA)]
    exact ⟨rfl, rfl, rfl⟩

/-- C5 witness: right after setup (cursor 1) the handler pushes byte 1 and
moves the cursor to 2; with the cursor at `NUM_DATA` it only disables. -/
theorem tx_handler_push_or_disable_witness :
    (USIC0_0_IRQHandler (mainSetup initState)).tx_index = 2 ∧
    (USIC0_0_IRQHandler (mainSetup initState)).txFifo = [0, 1] ∧
    (USIC0_0_IRQHandler { initState with tx_index := NUM_DATA }).tx_index = NUM_DATA ∧
    (USIC0_0_IRQHandler { initState with tx_index := NUM_DATA }).txEventEnabled = false ∧
    (USIC0_0_IRQHandler { initState with tx_index := NUM_DATA }).txIrqEnabled = false :=
  have h1 := (tx_handler_push_or_disable (mainSetup initState)).1 (by decide)
  have h2 := (tx_handler_push_or_disable { initState with tx_index := NUM_DATA }).2 rfl
  ⟨h1.1, by rw [h1.2]; decide, h2.1, h2.2.1, h2.2.2⟩

/-- C6: whenever, after the drain loop, the number of bytes still expected
`NUM_DATA - cursor` is nonzero and strictly below the original RX FIFO
trigger limit, the receive handler reprograms the trigger limit to
`(NUM_DATA - cursor) - 1`; and the main-loop setup applies the identical
adjustment (the same two source lines) once, before any data arrives, when
`NUM_DATA - cursor` is below the original limit. -/
theorem rx_trigger_limit_adaptive (s : UartState) (avail : List Nat)
    (h1 : s.rx_index + avail.length < NUM_DATA)
    (h2 : NUM_DATA - (s.rx_index + avail.length) < CYBSP_DEBUG_UART_RXFIFO_LIMIT) :
    (USIC0_1_IRQHandler s avail).rxTriggerLimit
      = some (NUM_DATA - (s.rx_index + avail.length) - 1) ∧
    (∀ t : UartState, t.rx_index < NUM_DATA →
        NUM_DATA - t.rx_index < CYBSP_DEBUG_UART_RXFIFO_LIMIT →
        (mainSetup t).rxTriggerLimit = some (NUM_DATA - t.rx_index - 1)) := by
  constructor
  · have hc : u32sub NUM_DATA (s.rx_index + avail.length)
        = NUM_DATA - (s.rx_index + avail.length) :=
      u32sub_small (le_of_lt h1) (by decide)
    have hinner : u32sub (NUM_DATA - (s.rx_index + avail.length)) 1
        = NUM_DATA - (s.rx_index + avail.length) - 1 :=
      u32sub_small (by omega) (lt_of_le_of_lt (Nat.sub_le _ _) (by decide))
    rw [handler_rxTriggerLimit, hc, if_pos h2, hinner]
  · intro t ht1 ht2
    have hc : u32sub NUM_DATA t.rx_index = NUM_DATA - t.rx_index :=
      u32sub_small (le_of_lt ht1) (by decide)
    have hinner : u32sub (NUM_DATA - t.rx_index) 1 = NUM_DATA - t.rx_index - 1 :=
      u32sub_small (by omega) (lt_of_le_of_lt (Nat.sub_le _ _) (by decide))
    rw [mainSetup_rxTriggerLimit, hc, if_pos ht2, hinner]

/-- C6 witness: draining 5 bytes from cursor 0 leaves 4 expected, below the
limit 7, so the limit becomes 3; setup from a state already expecting 4
bytes pre-adjusts the limit to 3 the same way. -/
theorem rx_trigger_limit_adaptive_witness :
    (USIC0_1_IRQHandler initState [9, 9, 9, 9, 9]).rxTriggerLimit = some 3 ∧
    (mainSetup { initState with rx_index := 5 }).rxTriggerLimit = some 3 :=
  have h := rx_trigger_limit_adaptive initState [9, 9, 9, 9, 9] (by decide) (by decide)
  ⟨h.1, h.2 { initState with rx_index := 5 } (by decide) (by decide)⟩

/-- C7: the main-loop setup fills the transmit buffer with the sequential
values `0..NUM_DATA-1`, and after starting the UART and busy-waiting for
FIFO space it pushes `tx_data[0]` directly, leaving the transmit cursor at 1
when the steady-state loop begins. -/
theorem main_setup_seeds_first_byte :
    (∀ i, i < NUM_DATA → (mainSetup initState).tx_data i = i) ∧
    (mainSetup initState).txFifo = [0] ∧
    (mainSetup initState).tx_index = 1 :=
  ⟨by decide, by decide, by decide⟩

/-- C7 witness: the sequential fill evaluated at a concrete in-range index. -/
theorem main_setup_seeds_first_byte_witness :
    3 < NUM_DATA ∧ (mainSetup initState).tx_data 3 = 3 :=
  ⟨by decide, main_setup_seeds_first_byte.1 3 (by decide)⟩

/-- C8: from two states with the completion signal cleared and both cursors
reset to 0 that hold the same transmit-buffer and receive-buffer contents,
the same sequence of received chunks followed by one comparison pass drives
the indicator to the identical final level: the comparison pass is a
deterministic function of the buffer contents only. -/
theorem cycle_outcome_deterministic (s1 s2 : UartState) (chunks : List (List Nat))
    (htx : s1.tx_data = s2.tx_data) (hrx : s1.rx_data = s2.rx_data)
    (hrc1 : s1.rx_index = 0) (hrc2 : s2.rx_index = 0)
    (_htc1 : s1.tx_index = 0) (_htc2 : s2.tx_index = 0)
    (_hf1 : s1.flag = 0) (_hf2 : s2.flag = 0) :
    (runCycle s1 chunks).led = (runCycle s2 chunks).led := by
  have hidx : s1.rx_index = s2.rx_index := by rw [hrc1, hrc2]
  have hcong := runRxPhase_rx_congr chunks s1 s2 hidx hrx
  show (comparePass (runRxPhase s1 chunks)).led = (comparePass (runRxPhase s2 chunks)).led
  rw [comparePass_led, comparePass_led, runRxPhase_tx_data, runRxPhase_tx_data,
      htx, hcong.2]

/-- C8 witness: two states differing in every receive-irrelevant component
(LED, TX FIFO, trigger limit) but holding the same buffers produce the same
final indicator level for the same injected chunks. -/
theorem cycle_outcome_deterministic_witness :
    (runCycle initState [[0, 1, 2], [3, 4, 5, 6, 7, 8]]).led =
      (runCycle
        { initState with led := some GpioLevel.low, txFifo := [255], rxTriggerLimit := some 3 }
        [[0, 1, 2], [3, 4, 5, 6, 7, 8]]).led :=
  cycle_outcome_deterministic initState
    { initState with led := some GpioLevel.low, txFifo := [255], rxTriggerLimit := some 3 }
    [[0, 1, 2], [3, 4, 5, 6, 7, 8]] rfl rfl rfl rfl rfl rfl rfl rfl

/-- C9: if board initialization does not return `CY_RSLT_SUCCESS`, `main`
reaches the unconditional `CY_ASSERT(0)` halt: the halt outcome carries no
program state, so no transmit-buffer fill, interrupt enable, UART start, or
comparison logic runs on the failure path. -/
theorem init_failure_halts (r : Nat) (h : r ≠ CY_RSLT_SUCCESS) :
    mainStart r = MainOutcome.halted := by
  unfold mainStart
  rw [if_pos h]

/-- C9 witness: a concrete failing result code halts. -/
theorem init_failure_halts_witness : mainStart 1 = MainOutcome.halted :=
  init_failure_halts 1 (by decide)

/-- C10: one comparison pass modifies only the indicator level and the
completion signal (which it clears to 0); both buffers, both cursors, the TX
FIFO, the trigger limit, the enable bits and the UART-start state are all
unchanged from the start to the end of the pass. -/
theorem compare_pass_frame (s : UartState) :
    (comparePass s).tx_data = s.tx_data ∧
    (comparePass s).rx_data = s.rx_data ∧
    (comparePass s).tx_index = s.tx_index ∧
    (comparePass s).rx_index = s.rx_index ∧
    (comparePass s).flag = 0 ∧
    (comparePass s).txFifo = s.txFifo ∧
    (comparePass s).rxTriggerLimit = s.rxTriggerLimit ∧
    (comparePass s).txEventEnabled = s.txEventEnabled ∧
    (comparePass s).txIrqEnabled = s.txIrqEnabled ∧
    (comparePass s).rxIrqEnabled = s.rxIrqEnabled ∧
    (comparePass s).uartStarted = s.uartStarted := by
  obtain ⟨a1, a2, a3, a4, a5, a6, a7, a8, a9, a10, a11⟩ :=
    compareFold_frame (List.range NUM_DATA) s
  rw [comparePass_eq]
  generalize hg : (List.range NUM_DATA).foldl compareStep s = t
    at a1 a2 a3 a4 a5 a6 a7 a8 a9 a10 a11 ⊢
  exact ⟨a4, a5, a1, a2, rfl, a6, a7, a8, a9, a10, a11⟩

end XmcUart
